import Mathlib

/-!
Verification of the browser-use sidecar daemon (`Scripts/browser-use-sidecar/main.py`).

This file shallowly embeds the daemon's lifecycle and protocol layer:
the liveness registry (`cleanup_stale_files` / `is_server_running`), the
command dispatcher (`handle_command` and the `cmd_*` handlers), the
health/idle supervisor (`health_check_loop`, one tick at a time), and the
agent task state machine (`cmd_agent_task`, `cmd_agent_continue`,
`cmd_agent_status`, `cmd_agent_cancel`, and the `ask_human` controller
action).  External effects (the browser-use engine, the LLM, the OS
scheduler) are abstracted as explicit `World` parameters; server state is
passed explicitly.  Time is modelled as natural-number seconds.
-/

namespace Sidecar

/-- JSON values as they appear in the daemon's responses.  The only array
shape the protocol layer itself builds is a list of strings (the
`options` of a pending question, the `urls` of a finished task), so arrays
are modelled as string lists to keep equality decidable. -/
inductive JVal where
  | str (s : String)
  | jbool (b : Bool)
  | num (n : Int)
  | strs (xs : List String)
deriving DecidableEq, Repr

/-- A response dictionary: an association list of field names to values,
modelling the Python dicts returned by every handler. -/
abbrev Resp := List (String × JVal)

/-- Source `IDLE_TIMEOUT_SECONDS = 300` from main.py. -/
def IDLE_TIMEOUT_SECONDS : Nat := 300

/-- Source `BROWSER_CHECK_INTERVAL = 15` from main.py. -/
def BROWSER_CHECK_INTERVAL : Nat := 15

/-! ## Liveness registry (`cleanup_stale_files`, `is_server_running`)

The on-disk daemon record consists of a pid file (whose content is a
string), a socket file and a lock file, all under the temp directory.
OS-level process existence (`os.kill(pid, 0)`) is modelled by a predicate
`alive : Nat → Bool`; the bounded-timeout connection attempt to the
socket is modelled by a `ConnectOutcome`. -/

/-- The on-disk daemon record: pid file content (if the file exists),
and existence of the socket and lock files. -/
structure FileState where
  pidFile : Option String
  sockFile : Bool
  lockFile : Bool
deriving DecidableEq, Repr

/-- Outcome of the bounded-timeout `sock.connect` in `is_server_running`. -/
inductive ConnectOutcome where
  | ok
  | failed
deriving DecidableEq, Repr

/-- Strip leading and trailing whitespace (`str.strip()`). -/
def trimChars (cs : List Char) : List Char :=
  ((cs.dropWhile Char.isWhitespace).reverse.dropWhile Char.isWhitespace).reverse

/-- Source `int(PID_PATH.read_text().strip())`: parse the pid file content as a
decimal number after stripping whitespace, `none` modelling the
`ValueError` of a non-numeric content.  (Pids are non-negative.) -/
def parsePid (content : String) : Option Nat :=
  let cs := trimChars content.data
  if cs ≠ [] ∧ cs.all Char.isDigit then
    some (cs.foldl (fun acc c => acc * 10 + (c.toNat - '0'.toNat)) 0)
  else none

/-- Source `cleanup_stale_files()`: if the pid file exists but its recorded
process does not (`os.kill(pid, 0)` raises `OSError`, or the content does
not parse, raising `ValueError`), unlink the pid, socket and lock files. -/
def cleanup_stale_files (alive : Nat → Bool) (fs : FileState) : FileState :=
  match fs.pidFile with
  | none => fs
  | some content =>
    match parsePid content with
    | none => ⟨none, false, false⟩
    | some pid => if alive pid then fs else ⟨none, false, false⟩

/-- Source `is_server_running()`: reconcile the on-disk record.  After
`cleanup_stale_files`, a missing pid file means no daemon; a live pid with
a socket file is probed with a bounded-timeout connect; a failed connect
means a zombied daemon, which is killed (SIGTERM then SIGKILL, modelled by
removing `pid` from the live set) before cleaning up again.  The
`except (OSError, ValueError)` branch (dead pid or unparseable content)
cleans up and returns `False`. -/
def is_server_running (alive : Nat → Bool) (conn : ConnectOutcome)
    (fs : FileState) : Bool × FileState :=
  let fs := cleanup_stale_files alive fs
  match fs.pidFile with
  | none => (false, fs)
  | some content =>
    match parsePid content with
    | none => (false, cleanup_stale_files alive fs)
    | some pid =>
      if alive pid then
        if fs.sockFile then
          match conn with
          | .ok => (true, fs)
          | .failed =>
            let alive' := fun p => if p = pid then false else alive p
            (false, cleanup_stale_files alive' fs)
        else (false, fs)
      else (false, cleanup_stale_files alive fs)

/-- Iterated client invocations of `is_server_running` (each CLI call
reconciles independently): `repeatedCalls n fs` is the file state after
`n` further calls starting from `fs`. -/
def repeatedCalls (alive : Nat → Bool) (conn : ConnectOutcome) :
    Nat → FileState → FileState
  | 0, fs => fs
  | n + 1, fs => repeatedCalls alive conn n (is_server_running alive conn fs).2

/-! ## Server state (`BrowserServer`)

The daemon's mutable fields, as set up in `BrowserServer.__init__`:
`self.session` (modelled as a started/not-started flag — the engine handle
itself is opaque), `self.running`, `self.last_activity`, and the agent
mode state `self._agent_task`, `self._pending_question`,
`self._user_response_event`, `self._user_response_value`.  The
`self._agent_instance` field is write-only bookkeeping (never read by any
handler) and is not modelled. -/

/-- Source `self._pending_question`: a dict with keys `question`, `options`,
`context` set by the `ask_human` action. -/
structure PendingQuestion where
  question : String
  options : List String
  context : String
deriving DecidableEq, Repr

/-- Source `self._agent_task`: an asyncio task handle.  `done` is
`task.done()`; `result` is the dict the `_run_agent` coroutine returned
(meaningful only once `done` — `_run_agent` catches every exception,
including `CancelledError`, and returns a status dict). -/
structure TaskHandle where
  done : Bool
  result : Resp
deriving DecidableEq, Repr

/-- The daemon's per-process state. -/
structure ServerState where
  /-- Source `self.session`: whether the browser session has been started. -/
  session : Bool
  /-- Source `self.running`: the main-loop flag. -/
  running : Bool
  /-- Source `self.last_activity` (seconds). -/
  lastActivity : Nat
  /-- Source `self._agent_task`. -/
  agentTask : Option TaskHandle
  /-- Source `self._pending_question`. -/
  pendingQuestion : Option PendingQuestion
  /-- Source `self._user_response_value`. -/
  userResponseValue : Option String
  /-- Source `self._user_response_event.is_set()`. -/
  userResponseEventSet : Bool
deriving DecidableEq, Repr

/-- Source `self._agent_task and not self._agent_task.done()`: an agent task is
in flight. -/
def agentInFlight (s : ServerState) : Bool :=
  match s.agentTask with
  | none => false
  | some t => !t.done

/-- Source `update_activity()`: stamp the current time. -/
def update_activity (now : Nat) (s : ServerState) : ServerState :=
  { s with lastActivity := now }

/-- Source `is_idle_timeout()`: `(time.time() - self.last_activity) > IDLE_TIMEOUT_SECONDS`. -/
def is_idle_timeout (now : Nat) (s : ServerState) : Bool :=
  (now - s.lastActivity) > IDLE_TIMEOUT_SECONDS

/-- What the in-flight agent coroutine has done by the end of one of the
bounded waits (`asyncio.wait_for(asyncio.shield(self._agent_task), ...)`
in `cmd_agent_task` and `cmd_agent_continue`): it finished with a result
dict, it invoked `ask_human` and is suspended on a fresh question, or it
is still running with no question raised. -/
inductive WaitOutcome where
  | completed (r : Resp)
  | needsInput (q : PendingQuestion)
  | stillRunning
deriving DecidableEq, Repr

/-- The environment of one dispatched command: everything outside the
daemon's own state that a handler consults.  `engineResp cmd` abstracts
the payload produced by the browser-use engine interaction of a
passthrough command (those calls never touch the server state fields). -/
structure World where
  /-- Whether `start_browser()` succeeds (after its internal retries). -/
  startBrowserOk : Bool
  /-- The exception text when `start_browser()` fails. -/
  startBrowserErr : String
  /-- The result of `is_browser_alive()`. -/
  browserAlive : Bool
  /-- Opaque engine-interaction payload of a passthrough command. -/
  engineResp : String → Resp
  /-- Net behaviour of the agent coroutine during the ≈2s wait of `cmd_agent_task`. -/
  agentWait : WaitOutcome
  /-- Net behaviour of the agent coroutine during the ≈5s wait of `cmd_agent_continue`. -/
  continueWait : WaitOutcome

/-- The request `params` dict; `none` fields are absent keys, read by the
handlers through `params.get(key, default)`. -/
structure Params where
  url : Option String
  index : Option Int
  text : Option String
  key : Option String
  direction : Option String
  filename : Option String
  seconds : Option Nat
  message : Option String
  task : Option String
  maxSteps : Option Nat
  model : Option String
  choice : Option String

/-- An empty params dict (`{}`). -/
def Params.empty : Params :=
  ⟨none, none, none, none, none, none, none, none, none, none, none, none⟩

/-- Source `{"error": msg}`. -/
def errorResp (msg : String) : Resp := [("error", .str msg)]

/-- The `need_input` status payload built (identically) in
`cmd_agent_task`, `cmd_agent_continue` and `cmd_agent_status` from
`self._pending_question`. -/
def needInputResp (q : PendingQuestion) : Resp :=
  [("status", .str "need_input"), ("question", .str q.question),
   ("options", .strs q.options), ("context", .str q.context)]

/-- The dict `_run_agent` returns from its `except asyncio.CancelledError`
branch. -/
def cancelledResp : Resp :=
  [("status", .str "cancelled"), ("message", .str "Agent task was cancelled")]

/-! ## Engine passthrough handlers

Each handler validates its preconditions exactly as in the source
(`if not self.session: return {"error": "Browser not started"}`, plus the
`is_browser_alive()` probe where the source has one), then performs the
engine interaction.  The engine interaction itself (native event
dispatch, per-operation timeouts, payload construction) happens entirely
outside the server state and is abstracted as `w.engineResp`. -/

/-- Source `cmd_open`: session check, liveness check, then engine navigation. -/
def cmd_open (_url : String) (w : World) (s : ServerState) : Resp × ServerState :=
  if s.session = false then (errorResp "Browser not started", s)
  else if w.browserAlive = false then
    (errorResp "Browser is not responsive - may need to restart", s)
  else (w.engineResp "open", s)

/-- Source `cmd_state`: session check, liveness check, then engine state dump. -/
def cmd_state (w : World) (s : ServerState) : Resp × ServerState :=
  if s.session = false then (errorResp "Browser not started", s)
  else if w.browserAlive = false then
    (errorResp "Browser is not responsive - may need to restart", s)
  else (w.engineResp "state", s)

/-- Source `cmd_click`: session check, then engine click. -/
def cmd_click (_index : Int) (w : World) (s : ServerState) : Resp × ServerState :=
  if s.session = false then (errorResp "Browser not started", s)
  else (w.engineResp "click", s)

/-- Source `cmd_input`: session check, then engine click-and-type. -/
def cmd_input (_index : Int) (_text : String) (w : World) (s : ServerState) :
    Resp × ServerState :=
  if s.session = false then (errorResp "Browser not started", s)
  else (w.engineResp "input", s)

/-- Source `cmd_type`: session check, then page-evaluate typing. -/
def cmd_type (_text : String) (w : World) (s : ServerState) : Resp × ServerState :=
  if s.session = false then (errorResp "Browser not started", s)
  else (w.engineResp "type", s)

/-- Source `cmd_keys`: session check, then key press. -/
def cmd_keys (_key : String) (w : World) (s : ServerState) : Resp × ServerState :=
  if s.session = false then (errorResp "Browser not started", s)
  else (w.engineResp "keys", s)

/-- Source `cmd_scroll`: session check, then scroll event. -/
def cmd_scroll (_direction : String) (w : World) (s : ServerState) :
    Resp × ServerState :=
  if s.session = false then (errorResp "Browser not started", s)
  else (w.engineResp "scroll", s)

/-- Source `cmd_back`: session check, then history navigation. -/
def cmd_back (w : World) (s : ServerState) : Resp × ServerState :=
  if s.session = false then (errorResp "Browser not started", s)
  else (w.engineResp "back", s)

/-- Source `cmd_refresh`: session check, then page reload. -/
def cmd_refresh (w : World) (s : ServerState) : Resp × ServerState :=
  if s.session = false then (errorResp "Browser not started", s)
  else (w.engineResp "refresh", s)

/-- Source `cmd_screenshot`: session check, then screenshot capture. -/
def cmd_screenshot (_filename : Option String) (w : World) (s : ServerState) :
    Resp × ServerState :=
  if s.session = false then (errorResp "Browser not started", s)
  else (w.engineResp "screenshot", s)

/-- Source `cmd_tabs`: session check, then tab listing. -/
def cmd_tabs (w : World) (s : ServerState) : Resp × ServerState :=
  if s.session = false then (errorResp "Browser not started", s)
  else (w.engineResp "tabs", s)

/-- Source `cmd_switch`: session check, then tab switch. -/
def cmd_switch (_index : Int) (w : World) (s : ServerState) : Resp × ServerState :=
  if s.session = false then (errorResp "Browser not started", s)
  else (w.engineResp "switch", s)

/-- Source `cmd_wait`: session check, then a loop that sleeps `seconds` seconds,
calling `update_activity()` each second; the final activity stamp is the
time the loop ends. -/
def cmd_wait (now : Nat) (seconds : Nat) (message : String) (s : ServerState) :
    Resp × ServerState :=
  if s.session = false then (errorResp "Browser not started", s)
  else
    let waitMsg := if message = "" then "Waiting for user action" else message
    ([("success", .jbool true), ("waited", .num (seconds : Int)),
      ("message", .str ("Waited " ++ toString seconds ++ " seconds for: " ++ waitMsg))],
     { s with lastActivity := now + seconds })

/-- Source `cmd_close`: cancel any running agent task (awaiting its teardown —
the cancelled coroutine's `except asyncio.CancelledError` branch returns
the `cancelled` dict and does **not** clear `self._pending_question`),
stop the session, force-kill the engine process (external), and set
`self.running = False`. -/
def cmd_close (s : ServerState) : Resp × ServerState :=
  let s :=
    match s.agentTask with
    | some t => if t.done then s else { s with agentTask := some ⟨true, cancelledResp⟩ }
    | none => s
  let s := { s with session := false }
  let s := { s with running := false }
  ([("success", .jbool true), ("message", .str "Browser closed, server stopping")], s)

/-! ## Agent mode (`ask_human`, `cmd_agent_*`) -/

/-- Outcome of one `ask_human` invocation as seen by the task loop. -/
inductive AskOutcome where
  | validationError (msg : String)
  | suspended
deriving DecidableEq, Repr

/-- The `ask_human` controller action, up to its suspension point: if
fewer than 2 options are supplied (`if not options or len(options) < 2`),
return an error `ActionResult` and touch nothing; otherwise record the
pending question, clear the user-response event and suspend on it. -/
def ask_human (question : String) (options : List String) (context : String)
    (s : ServerState) : AskOutcome × ServerState :=
  if options.isEmpty || options.length < 2 then
    (.validationError "ask_human requires at least 2 options", s)
  else
    (.suspended,
     { s with pendingQuestion := some ⟨question, options, context⟩,
              userResponseEventSet := false })

/-- Source `cmd_agent_status`: idle if no task was ever started; the task's own
result dict once it is done; `need_input` with the recorded question if
one is pending; else `running`. -/
def cmd_agent_status (s : ServerState) : Resp :=
  match s.agentTask with
  | none => [("status", .str "idle"), ("message", .str "No agent task")]
  | some t =>
    if t.done then t.result
    else
      match s.pendingQuestion with
      | some q => needInputResp q
      | none => [("status", .str "running"), ("message", .str "Agent task in progress")]

/-- The report built after `cmd_agent_task` starts the coroutine and
waits ≈2s (`asyncio.wait_for(asyncio.shield(self._agent_task), 2.0)`): a
quick completion returns the task's own result; a `TimeoutError` reports
`need_input` if `self._pending_question` is set, else `running`. -/
def agentTaskWaitPhase (o : WaitOutcome) (s : ServerState) : Resp × ServerState :=
  match o with
  | .completed r => (r, { s with agentTask := some ⟨true, r⟩ })
  | .needsInput q =>
    (needInputResp q,
     { s with agentTask := some ⟨false, []⟩, pendingQuestion := some q,
              userResponseEventSet := false })
  | .stillRunning =>
    ([("status", .str "running"),
      ("message", .str "Agent task started, check status with agent_status")],
     { s with agentTask := some ⟨false, []⟩ })

/-- Source `cmd_agent_task`: reject an empty task description; auto-start the
browser if needed (propagating start failure as an error); if a task is
already in flight return `cmd_agent_status()` unchanged; otherwise reset
the question/response state, start the coroutine, and report the outcome
of the ≈2s wait. -/
def cmd_agent_task (task : String) (_maxSteps : Nat) (_model : String)
    (w : World) (s : ServerState) : Resp × ServerState :=
  if task = "" then (errorResp "Task description is required", s)
  else if s.session = false ∧ w.startBrowserOk = false then
    (errorResp ("Failed to start browser: " ++ w.startBrowserErr), s)
  else
    -- from here on the session is started: either it already was, or
    -- `start_browser()` just succeeded and set it
    if agentInFlight s then
      (cmd_agent_status { s with session := true }, { s with session := true })
    else
      agentTaskWaitPhase w.agentWait
        { s with session := true, pendingQuestion := none,
                 userResponseValue := none, userResponseEventSet := false }

/-- The report built after `cmd_agent_continue` signals the response
event and waits ≈5s (`asyncio.wait_for(asyncio.shield(self._agent_task),
5.0)`).  The resumed `ask_human` consumes `self._user_response_value` and
clears the question before returning into the task loop, so by the end of
the window: the task finished (question and value cleared), raised a
fresh question (`ask_human` set it and cleared the event again), or is
still running past the consumed question. -/
def continueWaitPhase (o : WaitOutcome) (s : ServerState) : Resp × ServerState :=
  match o with
  | .completed r =>
    (r, { s with agentTask := some ⟨true, r⟩, pendingQuestion := none,
                 userResponseValue := none })
  | .needsInput q =>
    (needInputResp q,
     { s with pendingQuestion := some q, userResponseValue := none,
              userResponseEventSet := false })
  | .stillRunning =>
    ([("status", .str "running"), ("message", .str "Agent continuing...")],
     { s with pendingQuestion := none, userResponseValue := none })

/-- Source `cmd_agent_continue`: error if no task is in flight, if no question
is pending, or if the choice is empty; a choice outside the offered
options is accepted (only logged).  Otherwise record the response, set
the response event (resuming `ask_human`, which consumes the value and
clears the question), and wait ≈5s for the task to finish, raise a new
question, or keep running. -/
def cmd_agent_continue (choice : String) (w : World) (s : ServerState) :
    Resp × ServerState :=
  if agentInFlight s = false then
    (errorResp "No agent task is waiting for input", s)
  else
    match s.pendingQuestion with
    | none => (errorResp "Agent is not waiting for user input", s)
    | some _ =>
      if choice = "" then (errorResp "Choice is required", s)
      else
        continueWaitPhase w.continueWait
          { s with userResponseValue := some choice, userResponseEventSet := true }

/-- Source `cmd_agent_cancel`: no-op success if no task is in flight; otherwise
cancel the task, await its teardown, and clear the pending question. -/
def cmd_agent_cancel (s : ServerState) : Resp × ServerState :=
  match s.agentTask with
  | none => ([("success", .jbool true), ("message", .str "No active agent task to cancel")], s)
  | some t =>
    if t.done then
      ([("success", .jbool true), ("message", .str "No active agent task to cancel")], s)
    else
      ([("success", .jbool true), ("message", .str "Agent task cancelled")],
       { s with agentTask := some ⟨true, cancelledResp⟩, pendingQuestion := none })

/-! ## Command dispatcher (`handle_command`) -/

/-- The `if cmd == ... / elif ... / else` chain of `handle_command`,
after the initial `update_activity()`.  Parameter defaults follow the
source's `params.get(key, default)` calls. -/
def dispatchBody (now : Nat) (cmd : String) (p : Params) (w : World)
    (s : ServerState) : Resp × ServerState :=
  if cmd = "open" then cmd_open (p.url.getD "") w s
  else if cmd = "state" then cmd_state w s
  else if cmd = "click" then cmd_click (p.index.getD 0) w s
  else if cmd = "input" then cmd_input (p.index.getD 0) (p.text.getD "") w s
  else if cmd = "type" then cmd_type (p.text.getD "") w s
  else if cmd = "keys" then cmd_keys (p.key.getD "") w s
  else if cmd = "scroll" then cmd_scroll (p.direction.getD "down") w s
  else if cmd = "back" then cmd_back w s
  else if cmd = "screenshot" then cmd_screenshot p.filename w s
  else if cmd = "close" then cmd_close s
  else if cmd = "ping" then ([("success", .jbool true), ("message", .str "pong")], s)
  else if cmd = "tabs" then cmd_tabs w s
  else if cmd = "switch" then cmd_switch (p.index.getD 0) w s
  else if cmd = "wait" then cmd_wait now (p.seconds.getD 30) (p.message.getD "") s
  else if cmd = "refresh" then cmd_refresh w s
  else if cmd = "agent_task" then
    cmd_agent_task (p.task.getD "") (p.maxSteps.getD 50) (p.model.getD "anthropic") w s
  else if cmd = "agent_continue" then cmd_agent_continue (p.choice.getD "") w s
  else if cmd = "agent_status" then (cmd_agent_status s, s)
  else if cmd = "agent_cancel" then cmd_agent_cancel s
  else (errorResp ("Unknown command: " ++ cmd), s)

/-- Source `handle_command`: stamp activity first (`self.update_activity()`),
then run the command-specific body. -/
def handle_command (now : Nat) (cmd : String) (p : Params) (w : World)
    (s : ServerState) : Resp × ServerState :=
  dispatchBody now cmd p w (update_activity now s)

/-- The recognized command names of the dispatch chain. -/
def knownCommands : List String :=
  ["open", "state", "click", "input", "type", "keys", "scroll", "back",
   "screenshot", "close", "ping", "tabs", "switch", "wait", "refresh",
   "agent_task", "agent_continue", "agent_status", "agent_cancel"]

/-- The engine passthrough commands that guard on a started session
(each handler begins with `if not self.session`). -/
def enginePassthroughCommands : List String :=
  ["open", "state", "click", "input", "type", "keys", "scroll", "back",
   "refresh", "screenshot", "tabs", "switch"]

/-! ## Health & idle supervisor (`health_check_loop`)

The loop keeps a local `consecutive_failures` counter
(`max_consecutive_failures = 3`) and, every `BROWSER_CHECK_INTERVAL`
seconds: skips all checks while an agent task is in flight (resetting the
counter and refreshing activity); otherwise shuts down on idle timeout;
otherwise probes `is_browser_alive()`, resetting the counter on success
and shutting down after 3 consecutive failures.  One iteration is
modelled as `health_check_tick`. -/

/-- Source `max_consecutive_failures = 3` in `health_check_loop`. -/
def max_consecutive_failures : Nat := 3

/-- Which branch of `health_check_loop` requested shutdown
(distinguished in the source by the message it prints before setting
`self.running = False`). -/
inductive ShutdownReason where
  | idle
  | liveness
deriving DecidableEq, Repr

/-- The result of one `health_check_loop` iteration. -/
structure TickResult where
  state : ServerState
  consecutiveFailures : Nat
  shutdown : Option ShutdownReason
deriving Repr

/-- One iteration of `health_check_loop` at time `now`, with liveness
probe outcome `probe` and current counter `cf`. -/
def health_check_tick (now : Nat) (probe : Bool) (s : ServerState) (cf : Nat) :
    TickResult :=
  if agentInFlight s then ⟨update_activity now s, 0, none⟩
  else if is_idle_timeout now s then ⟨{ s with running := false }, cf, some .idle⟩
  else if s.session then
    if probe then ⟨s, 0, none⟩
    else if cf + 1 ≥ max_consecutive_failures then
      ⟨{ s with running := false }, cf + 1, some .liveness⟩
    else ⟨s, cf + 1, none⟩
  else ⟨s, cf, none⟩

/-- The probe-handling core of one tick (the `if self.session:` branch of
`health_check_loop`): new counter value, and whether liveness shutdown is
requested. -/
def probeStep (cf : Nat) (probe : Bool) : Nat × Bool :=
  if probe then (0, false)
  else (cf + 1, decide (cf + 1 ≥ max_consecutive_failures))

/-- Folding `probeStep` over a sequence of probe outcomes (ticks with no
agent task in flight and no idle timeout), stopping at the first liveness
shutdown: final counter and whether shutdown was requested. -/
def probeRun (cf : Nat) : List Bool → Nat × Bool
  | [] => (cf, false)
  | p :: ps =>
    let r := probeStep cf p
    if r.2 then r else probeRun r.1 ps

/-- Whether a probe sequence starts with three failures. -/
def startsWithThreeFailures : List Bool → Bool
  | false :: false :: false :: _ => true
  | _ => false

/-- Whether a probe sequence contains three consecutive failures with no
intervening success. -/
def hasThreeConsecutiveFailures : List Bool → Bool
  | [] => false
  | p :: tl => startsWithThreeFailures (p :: tl) || hasThreeConsecutiveFailures tl

/-! ## Quiescent-point transition system

The daemon is a single cooperative event loop: command handlers and the
agent coroutine interleave only at `await` points, so the state observed
between command handlers evolves by these atomic operations.  The task-
side operations carry the guards under which the corresponding code point
is reachable: `ask_human` runs only inside an in-flight task with no
question already pending; the coroutine resumes from `ask_human`'s wait
only once the response event is set; and it can reach its normal return
only when it is not suspended inside `ask_human` (the only point where a
question is pending is that wait — cancellation, which terminates the
task with the question still pending, is performed synchronously by
`cmd_close` / `cmd_agent_cancel` themselves). -/

/-- An atomic operation between quiescent points. -/
inductive Op where
  /-- A client request dispatched through `handle_command`. -/
  | dispatch (now : Nat) (cmd : String) (p : Params) (w : World)
  /-- The task loop invokes the `ask_human` action. -/
  | taskAsks (question : String) (options : List String) (context : String)
  /-- Source `ask_human` wakes from `self._user_response_event.wait()` and
  consumes the response. -/
  | taskResumes
  /-- The `_run_agent` coroutine returns its result dict. -/
  | taskFinishes (r : Resp)

/-- The state transition of one atomic operation (guarded: a task-side
operation whose code point is unreachable leaves the state unchanged). -/
def step (op : Op) (s : ServerState) : ServerState :=
  match op with
  | .dispatch now cmd p w => (handle_command now cmd p w s).2
  | .taskAsks q opts ctx =>
    if agentInFlight s = true ∧ s.pendingQuestion = none then
      (ask_human q opts ctx s).2
    else s
  | .taskResumes =>
    if agentInFlight s = true ∧ s.pendingQuestion.isSome ∧ s.userResponseEventSet then
      { s with pendingQuestion := none, userResponseValue := none }
    else s
  | .taskFinishes r =>
    if agentInFlight s = true ∧ s.pendingQuestion = none then
      { s with agentTask := some ⟨true, r⟩ }
    else s

/-- Whether an operation is a dispatch of the `close` command. -/
def Op.isCloseDispatch : Op → Bool
  | .dispatch _ cmd _ _ => cmd = "close"
  | _ => false

/-- The claimed quiescent-point invariant: a pending question exists iff
an agent task is in flight and `cmd_agent_status` would report
`need_input` — equivalently (since the `need_input` branch of
`cmd_agent_status` fires exactly when the task is in flight and a
question is pending), a pending question implies an in-flight task. -/
abbrev PendingInv (s : ServerState) : Prop :=
  s.pendingQuestion.isSome = (agentInFlight s && s.pendingQuestion.isSome)

/-! ## Basic state-preservation lemmas -/

lemma cmd_open_snd (u : String) (w : World) (s : ServerState) :
    (cmd_open u w s).2 = s := by
  unfold cmd_open; split_ifs <;> rfl

lemma cmd_state_snd (w : World) (s : ServerState) :
    (cmd_state w s).2 = s := by
  unfold cmd_state; split_ifs <;> rfl

lemma cmd_click_snd (i : Int) (w : World) (s : ServerState) :
    (cmd_click i w s).2 = s := by
  unfold cmd_click; split_ifs <;> rfl

lemma cmd_input_snd (i : Int) (t : String) (w : World) (s : ServerState) :
    (cmd_input i t w s).2 = s := by
  unfold cmd_input; split_ifs <;> rfl

lemma cmd_type_snd (t : String) (w : World) (s : ServerState) :
    (cmd_type t w s).2 = s := by
  unfold cmd_type; split_ifs <;> rfl

lemma cmd_keys_snd (k : String) (w : World) (s : ServerState) :
    (cmd_keys k w s).2 = s := by
  unfold cmd_keys; split_ifs <;> rfl

lemma cmd_scroll_snd (d : String) (w : World) (s : ServerState) :
    (cmd_scroll d w s).2 = s := by
  unfold cmd_scroll; split_ifs <;> rfl

lemma cmd_back_snd (w : World) (s : ServerState) :
    (cmd_back w s).2 = s := by
  unfold cmd_back; split_ifs <;> rfl

lemma cmd_refresh_snd (w : World) (s : ServerState) :
    (cmd_refresh w s).2 = s := by
  unfold cmd_refresh; split_ifs <;> rfl

lemma cmd_screenshot_snd (f : Option String) (w : World) (s : ServerState) :
    (cmd_screenshot f w s).2 = s := by
  unfold cmd_screenshot; split_ifs <;> rfl

lemma cmd_tabs_snd (w : World) (s : ServerState) :
    (cmd_tabs w s).2 = s := by
  unfold cmd_tabs; split_ifs <;> rfl

lemma cmd_switch_snd (i : Int) (w : World) (s : ServerState) :
    (cmd_switch i w s).2 = s := by
  unfold cmd_switch; split_ifs <;> rfl

lemma cmd_wait_snd (now sec : Nat) (m : String) (s : ServerState) :
    (cmd_wait now sec m s).2
      = if s.session = false then s else { s with lastActivity := now + sec } := by
  unfold cmd_wait; split_ifs <;> rfl

lemma cmd_close_la (s : ServerState) :
    (cmd_close s).2.lastActivity = s.lastActivity := by
  unfold cmd_close
  repeat' split
  all_goals rfl

lemma cmd_close_pending (s : ServerState) :
    (cmd_close s).2.pendingQuestion = s.pendingQuestion := by
  unfold cmd_close
  repeat' split
  all_goals rfl

lemma cmd_agent_task_la (task : String) (ms : Nat) (m : String) (w : World)
    (s : ServerState) :
    (cmd_agent_task task ms m w s).2.lastActivity = s.lastActivity := by
  unfold cmd_agent_task agentTaskWaitPhase
  repeat' split
  all_goals rfl

lemma cmd_agent_continue_la (c : String) (w : World) (s : ServerState) :
    (cmd_agent_continue c w s).2.lastActivity = s.lastActivity := by
  unfold cmd_agent_continue continueWaitPhase
  repeat' split
  all_goals rfl

lemma cmd_agent_cancel_la (s : ServerState) :
    (cmd_agent_cancel s).2.lastActivity = s.lastActivity := by
  unfold cmd_agent_cancel
  repeat' split
  all_goals rfl

/-! ## C1: idempotent reconciliation of a stale daemon record -/

/-- C1.  If the on-disk daemon record names a process id that is not
alive, `is_server_running` returns `false` and deletes the whole record
(pid, socket and lock files), and any number of further calls — under any
OS state and any connection outcome — still return `false` on the empty
record and leave it empty. -/
theorem stale_record_reconciliation
    (alive : Nat → Bool) (conn : ConnectOutcome) (fs : FileState)
    (content : String) (pid : Nat)
    (hpid : fs.pidFile = some content) (hparse : parsePid content = some pid)
    (hdead : alive pid = false) :
    is_server_running alive conn fs = (false, ⟨none, false, false⟩) ∧
    (∀ (alive' : Nat → Bool) (conn' : ConnectOutcome),
      is_server_running alive' conn' ⟨none, false, false⟩
        = (false, ⟨none, false, false⟩)) ∧
    (∀ n, repeatedCalls alive conn n (is_server_running alive conn fs).2
        = ⟨none, false, false⟩) := by
  have hclean : cleanup_stale_files alive fs = ⟨none, false, false⟩ := by
    unfold cleanup_stale_files
    simp [hpid, hparse, hdead]
  have hfix : ∀ (alive' : Nat → Bool) (conn' : ConnectOutcome),
      is_server_running alive' conn' ⟨none, false, false⟩
        = (false, ⟨none, false, false⟩) := by
    intro alive' conn'
    rfl
  have h1 : is_server_running alive conn fs = (false, ⟨none, false, false⟩) := by
    unfold is_server_running
    rw [hclean]
  refine ⟨h1, hfix, ?_⟩
  have hrep : ∀ n, repeatedCalls alive conn n ⟨none, false, false⟩
      = ⟨none, false, false⟩ := by
    intro n
    induction n with
    | zero => rfl
    | succ n ih =>
      show repeatedCalls alive conn n
        (is_server_running alive conn ⟨none, false, false⟩).2 = _
      rw [hfix alive conn]
      exact ih
  intro n
  rw [h1]
  exact hrep n

/-- Witness for C1 at a concrete stale record. -/
theorem stale_record_reconciliation_witness :
    is_server_running (fun _ => false) .ok ⟨some "123", true, true⟩
      = (false, ⟨none, false, false⟩) :=
  (stale_record_reconciliation (fun _ => false) .ok ⟨some "123", true, true⟩
    "123" 123 rfl rfl rfl).1

/-! ## C4: idle shutdown within one health-loop tick -/

/-- C4.  If no agent task is in flight and the time since the last
activity exceeds the idle threshold, the next tick of the health loop
(which fires every `BROWSER_CHECK_INTERVAL = 15` seconds) sets
`running := false`, with the idle-timeout message. -/
theorem idle_shutdown_one_tick
    (s : ServerState) (cf now : Nat) (probe : Bool)
    (hflight : agentInFlight s = false)
    (hidle : now - s.lastActivity > IDLE_TIMEOUT_SECONDS) :
    (health_check_tick now probe s cf).state.running = false ∧
    (health_check_tick now probe s cf).shutdown = some .idle ∧
    IDLE_TIMEOUT_SECONDS = 300 ∧ BROWSER_CHECK_INTERVAL = 15 := by
  have h : is_idle_timeout now s = true := by
    unfold is_idle_timeout
    exact decide_eq_true hidle
  unfold health_check_tick
  rw [hflight, h]
  exact ⟨rfl, rfl, rfl, rfl⟩

/-- Witness for C4: a state idle for 301 seconds is shut down by the next
tick. -/
theorem idle_shutdown_one_tick_witness :
    (health_check_tick 301 true ⟨true, true, 0, none, none, none, false⟩ 0).state.running
      = false :=
  (idle_shutdown_one_tick ⟨true, true, 0, none, none, none, false⟩ 0 301 true
    rfl (by decide)).1

/-! ## C8: unknown commands -/

/-- C8.  Dispatching any command name outside the recognized set returns
exactly the `Unknown command` error and leaves the session handle, the
agent task, the pending question and the user-response state (and the
main-loop flag) unchanged. -/
theorem unknown_command_dispatch
    (cmd : String) (hcmd : cmd ∉ knownCommands)
    (p : Params) (w : World) (s : ServerState) (now : Nat) :
    (handle_command now cmd p w s).1 = errorResp ("Unknown command: " ++ cmd) ∧
    (handle_command now cmd p w s).2.session = s.session ∧
    (handle_command now cmd p w s).2.agentTask = s.agentTask ∧
    (handle_command now cmd p w s).2.pendingQuestion = s.pendingQuestion ∧
    (handle_command now cmd p w s).2.userResponseValue = s.userResponseValue ∧
    (handle_command now cmd p w s).2.userResponseEventSet = s.userResponseEventSet ∧
    (handle_command now cmd p w s).2.running = s.running := by
  simp only [knownCommands, List.mem_cons, List.not_mem_nil, or_false, not_or] at hcmd
  obtain ⟨h1, h2, h3, h4, h5, h6, h7, h8, h9, h10, h11, h12, h13, h14, h15,
    h16, h17, h18, h19⟩ := hcmd
  unfold handle_command dispatchBody
  rw [if_neg h1, if_neg h2, if_neg h3, if_neg h4, if_neg h5, if_neg h6,
    if_neg h7, if_neg h8, if_neg h9, if_neg h10, if_neg h11, if_neg h12,
    if_neg h13, if_neg h14, if_neg h15, if_neg h16, if_neg h17, if_neg h18,
    if_neg h19]
  exact ⟨rfl, rfl, rfl, rfl, rfl, rfl, rfl⟩

/-- Witness for C8 at the spec's own example, `dispatch("bogus", {})`. -/
theorem unknown_command_dispatch_witness :
    (handle_command 0 "bogus" Params.empty
        ⟨true, "", true, fun _ => [], .stillRunning, .stillRunning⟩
        ⟨false, true, 0, none, none, none, false⟩).1
      = errorResp "Unknown command: bogus" :=
  (unknown_command_dispatch "bogus" (by decide) Params.empty
    ⟨true, "", true, fun _ => [], .stillRunning, .stillRunning⟩
    ⟨false, true, 0, none, none, none, false⟩ 0).1

/-! ## C10: `ping` has no engine preconditions -/

/-- C10.  `ping` answers `{"success": true, "message": "pong"}` in every
server state and world — even with no session or an unresponsive engine —
and changes nothing but the activity stamp; by contrast, each engine
passthrough command refuses with `Browser not started` whenever the
session is not started. -/
theorem ping_no_preconditions
    (p : Params) (w : World) (s : ServerState) (now : Nat) :
    (handle_command now "ping" p w s).1
      = [("success", .jbool true), ("message", .str "pong")] ∧
    (handle_command now "ping" p w s).2 = update_activity now s ∧
    (∀ c ∈ enginePassthroughCommands, s.session = false →
      (handle_command now c p w s).1 = errorResp "Browser not started") := by
  refine ⟨rfl, rfl, ?_⟩
  intro c hc hsess
  fin_cases hc <;>
    simp [handle_command, dispatchBody, update_activity, cmd_open, cmd_state,
      cmd_click, cmd_input, cmd_type, cmd_keys, cmd_scroll, cmd_back,
      cmd_refresh, cmd_screenshot, cmd_tabs, cmd_switch, hsess]

/-- Witness for C10: pong with no session, and `open` refusing there. -/
theorem ping_no_preconditions_witness :
    (handle_command 0 "ping" Params.empty
        ⟨true, "", true, fun _ => [], .stillRunning, .stillRunning⟩
        ⟨false, true, 0, none, none, none, false⟩).1
      = [("success", .jbool true), ("message", .str "pong")] ∧
    (handle_command 0 "open" Params.empty
        ⟨true, "", true, fun _ => [], .stillRunning, .stillRunning⟩
        ⟨false, true, 0, none, none, none, false⟩).1
      = errorResp "Browser not started" := by
  have h := ping_no_preconditions Params.empty
    ⟨true, "", true, fun _ => [], .stillRunning, .stillRunning⟩
    ⟨false, true, 0, none, none, none, false⟩ 0
  exact ⟨h.1, h.2.2 "open" (by decide) rfl⟩

/-! ## C9: every dispatch stamps activity first -/

set_option maxHeartbeats 1600000 in
/-- C9.  `handle_command` is the command body run on the
activity-stamped state — the stamp happens before any command-specific
work, for recognized and unknown, succeeding and failing commands alike —
and no handler moves the activity stamp backwards, so after a dispatch at
time `now` the idle timeout cannot fire for at least
`IDLE_TIMEOUT_SECONDS`. -/
theorem dispatch_resets_idle_timer
    (now : Nat) (cmd : String) (p : Params) (w : World) (s : ServerState) :
    handle_command now cmd p w s = dispatchBody now cmd p w (update_activity now s) ∧
    (update_activity now s).lastActivity = now ∧
    now ≤ (handle_command now cmd p w s).2.lastActivity ∧
    (∀ now', now' ≤ now + IDLE_TIMEOUT_SECONDS →
      is_idle_timeout now' (handle_command now cmd p w s).2 = false) := by
  have hge : now ≤ (handle_command now cmd p w s).2.lastActivity := by
    have hla : (update_activity now s).lastActivity = now := rfl
    unfold handle_command
    generalize update_activity now s = u at hla
    rcases Classical.em (cmd ∈ knownCommands) with hin | hout
    · simp only [knownCommands, List.mem_cons, List.not_mem_nil, or_false] at hin
      rcases hin with rfl | rfl | rfl | rfl | rfl | rfl | rfl | rfl | rfl |
        rfl | rfl | rfl | rfl | rfl | rfl | rfl | rfl | rfl | rfl
      · show now ≤ (cmd_open (p.url.getD "") w u).2.lastActivity
        rw [cmd_open_snd]; exact le_of_eq hla.symm
      · show now ≤ (cmd_state w u).2.lastActivity
        rw [cmd_state_snd]; exact le_of_eq hla.symm
      · show now ≤ (cmd_click (p.index.getD 0) w u).2.lastActivity
        rw [cmd_click_snd]; exact le_of_eq hla.symm
      · show now ≤ (cmd_input (p.index.getD 0) (p.text.getD "") w u).2.lastActivity
        rw [cmd_input_snd]; exact le_of_eq hla.symm
      · show now ≤ (cmd_type (p.text.getD "") w u).2.lastActivity
        rw [cmd_type_snd]; exact le_of_eq hla.symm
      · show now ≤ (cmd_keys (p.key.getD "") w u).2.lastActivity
        rw [cmd_keys_snd]; exact le_of_eq hla.symm
      · show now ≤ (cmd_scroll (p.direction.getD "down") w u).2.lastActivity
        rw [cmd_scroll_snd]; exact le_of_eq hla.symm
      · show now ≤ (cmd_back w u).2.lastActivity
        rw [cmd_back_snd]; exact le_of_eq hla.symm
      · show now ≤ (cmd_screenshot p.filename w u).2.lastActivity
        rw [cmd_screenshot_snd]; exact le_of_eq hla.symm
      · show now ≤ (cmd_close u).2.lastActivity
        rw [cmd_close_la]; exact le_of_eq hla.symm
      · show now ≤ u.lastActivity
        exact le_of_eq hla.symm
      · show now ≤ (cmd_tabs w u).2.lastActivity
        rw [cmd_tabs_snd]; exact le_of_eq hla.symm
      · show now ≤ (cmd_switch (p.index.getD 0) w u).2.lastActivity
        rw [cmd_switch_snd]; exact le_of_eq hla.symm
      · show now ≤ (cmd_wait now (p.seconds.getD 30) (p.message.getD "") u).2.lastActivity
        rw [cmd_wait_snd]
        split
        · exact le_of_eq hla.symm
        · exact Nat.le_add_right now _
      · show now ≤ (cmd_refresh w u).2.lastActivity
        rw [cmd_refresh_snd]; exact le_of_eq hla.symm
      · show now ≤ (cmd_agent_task (p.task.getD "") (p.maxSteps.getD 50)
            (p.model.getD "anthropic") w u).2.lastActivity
        rw [cmd_agent_task_la]; exact le_of_eq hla.symm
      · show now ≤ (cmd_agent_continue (p.choice.getD "") w u).2.lastActivity
        rw [cmd_agent_continue_la]; exact le_of_eq hla.symm
      · show now ≤ u.lastActivity
        exact le_of_eq hla.symm
      · show now ≤ (cmd_agent_cancel u).2.lastActivity
        rw [cmd_agent_cancel_la]; exact le_of_eq hla.symm
    · simp only [knownCommands, List.mem_cons, List.not_mem_nil, or_false,
        not_or] at hout
      obtain ⟨h1, h2, h3, h4, h5, h6, h7, h8, h9, h10, h11, h12, h13, h14,
        h15, h16, h17, h18, h19⟩ := hout
      unfold dispatchBody
      rw [if_neg h1, if_neg h2, if_neg h3, if_neg h4, if_neg h5, if_neg h6,
        if_neg h7, if_neg h8, if_neg h9, if_neg h10, if_neg h11, if_neg h12,
        if_neg h13, if_neg h14, if_neg h15, if_neg h16, if_neg h17,
        if_neg h18, if_neg h19]
      exact le_of_eq hla.symm
  refine ⟨rfl, rfl, hge, ?_⟩
  intro now' h'
  simp only [IDLE_TIMEOUT_SECONDS] at h'
  unfold is_idle_timeout IDLE_TIMEOUT_SECONDS
  simp only [decide_eq_false_iff_not, not_lt, gt_iff_lt]
  omega

/-- Witness for C9: after a failing dispatch (unknown command) at time
0, the state is not idle-timed-out at time 300. -/
theorem dispatch_resets_idle_timer_witness :
    is_idle_timeout 300
      (handle_command 0 "bogus2" Params.empty
        ⟨true, "", true, fun _ => [], .stillRunning, .stillRunning⟩
        ⟨false, true, 0, none, none, none, false⟩).2 = false :=
  (dispatch_resets_idle_timer 0 "bogus2" Params.empty
    ⟨true, "", true, fun _ => [], .stillRunning, .stillRunning⟩
    ⟨false, true, 0, none, none, none, false⟩).2.2.2 300 (by decide)

/-! ## C3: health-probe failure tolerance -/

@[simp] lemma swtf_nil : startsWithThreeFailures [] = false := rfl

@[simp] lemma swtf_true (l : List Bool) :
    startsWithThreeFailures (true :: l) = false := rfl

@[simp] lemma swtf_one : startsWithThreeFailures [false] = false := rfl

@[simp] lemma swtf_two : startsWithThreeFailures [false, false] = false := rfl

@[simp] lemma swtf_ft (l : List Bool) :
    startsWithThreeFailures (false :: true :: l) = false := rfl

@[simp] lemma swtf_fft (l : List Bool) :
    startsWithThreeFailures (false :: false :: true :: l) = false := rfl

@[simp] lemma swtf_fff (l : List Bool) :
    startsWithThreeFailures (false :: false :: false :: l) = true := rfl

/-- A tick with no in-flight task, no idle timeout and a live session
reduces to the probe-handling branch of `health_check_loop`. -/
lemma health_check_tick_probe
    (now : Nat) (s : ServerState) (hflight : agentInFlight s = false)
    (hidle : is_idle_timeout now s = false) (hsess : s.session = true)
    (p : Bool) (c : Nat) :
    health_check_tick now p s c =
      if p then ⟨s, 0, none⟩
      else if c + 1 ≥ max_consecutive_failures then
        ⟨{ s with running := false }, c + 1, some .liveness⟩
      else ⟨s, c + 1, none⟩ := by
  unfold health_check_tick
  rw [hflight, hidle, hsess]
  simp

/-- Folding the probe branch over a probe sequence requests shutdown iff
the sequence, prefixed by the failures already counted, contains three
consecutive failures. -/
lemma probeRun_eq_hasThree (ps : List Bool) : ∀ cf : Nat, cf ≤ 2 →
    (probeRun cf ps).2
      = hasThreeConsecutiveFailures (List.replicate cf false ++ ps) := by
  induction ps with
  | nil =>
    intro cf hcf
    interval_cases cf <;> decide
  | cons p tl ih =>
    intro cf hcf
    cases p with
    | true =>
      have h0 := ih 0 (by omega)
      have hL : (probeRun cf (true :: tl)).2 = (probeRun 0 tl).2 := by
        simp [probeRun, probeStep]
      rw [hL, h0]
      interval_cases cf <;>
        simp [hasThreeConsecutiveFailures, List.replicate]
    | false =>
      interval_cases cf
      · have h1 := ih 1 (by omega)
        have hL : (probeRun 0 (false :: tl)).2 = (probeRun 1 tl).2 := by
          simp [probeRun, probeStep, max_consecutive_failures]
        rw [hL]
        simpa using h1
      · have h2 := ih 2 (by omega)
        have hL : (probeRun 1 (false :: tl)).2 = (probeRun 2 tl).2 := by
          simp [probeRun, probeStep, max_consecutive_failures]
        rw [hL]
        simpa using h2
      · have hL : (probeRun 2 (false :: tl)).2 = true := by
          simp [probeRun, probeStep, max_consecutive_failures]
        rw [hL]
        simp [hasThreeConsecutiveFailures, List.replicate]

/-- C3.  With no agent task in flight (and no idle timeout), a single
failed probe followed by a successful one never requests shutdown; every
successful probe resets the consecutive-failure counter to 0; a tick
requests liveness shutdown exactly when its probe fails after two already
counted consecutive failures; and over any probe sequence, liveness
shutdown is requested exactly when the sequence contains
`max_consecutive_failures = 3` consecutive failures with no intervening
success. -/
theorem health_probe_tolerance
    (s : ServerState) (cf now : Nat)
    (hflight : agentInFlight s = false)
    (hidle : is_idle_timeout now s = false)
    (hsess : s.session = true)
    (hrun : s.running = true) :
    (health_check_tick now false s 0 = ⟨s, 1, none⟩ ∧
     health_check_tick now true s 1 = ⟨s, 0, none⟩ ∧
     (health_check_tick now true s 1).state.running = true) ∧
    ((health_check_tick now true s cf).consecutiveFailures = 0 ∧
     (health_check_tick now true s cf).shutdown = none) ∧
    ((health_check_tick now false s cf).shutdown = some .liveness ↔
      cf + 1 ≥ max_consecutive_failures) ∧
    (∀ (p : Bool) (c : Nat),
      (health_check_tick now p s c).consecutiveFailures = (probeStep c p).1 ∧
      ((health_check_tick now p s c).shutdown = some .liveness ↔
        (probeStep c p).2 = true)) ∧
    (∀ ps : List Bool,
      (probeRun 0 ps).2 = hasThreeConsecutiveFailures ps) := by
  have htick := health_check_tick_probe now s hflight hidle hsess
  refine ⟨⟨?_, ?_, ?_⟩, ⟨?_, ?_⟩, ?_, ?_, ?_⟩
  · rw [htick false 0]; norm_num [max_consecutive_failures]
  · rw [htick true 1]; simp
  · rw [htick true 1]; simpa using hrun
  · rw [htick true cf]; simp
  · rw [htick true cf]; simp
  · rw [htick false cf]
    by_cases hc : cf + 1 ≥ max_consecutive_failures <;> simp [hc]
  · intro p c
    rw [htick p c]
    cases p with
    | true => simp [probeStep]
    | false =>
      by_cases hc : c + 1 ≥ max_consecutive_failures <;>
        simp [probeStep, hc]
  · intro ps
    simpa using probeRun_eq_hasThree ps 0 (by omega)

/-- Witness for C3 at a concrete live, non-idle state. -/
theorem health_probe_tolerance_witness :
    health_check_tick 0 false ⟨true, true, 0, none, none, none, false⟩ 0
      = ⟨⟨true, true, 0, none, none, none, false⟩, 1, none⟩ :=
  (health_probe_tolerance ⟨true, true, 0, none, none, none, false⟩ 0 0
    rfl rfl rfl rfl).1.1

/-! ## C2: a second `agent_task` returns the in-flight task's status -/

/-- C2, counterexample to the unqualified claim.  With a task in flight,
dispatching `agent_task` with an *empty* task description does not return
the existing task's status: the handler's parameter validation fires
first and returns `Task description is required`. -/
theorem second_agent_task_empty_task_cex :
    agentInFlight ⟨true, true, 0, some ⟨false, []⟩, none, none, false⟩ = true ∧
    (cmd_agent_task "" 50 "anthropic"
        ⟨true, "", true, fun _ => [], .stillRunning, .stillRunning⟩
        ⟨true, true, 0, some ⟨false, []⟩, none, none, false⟩).1
      = errorResp "Task description is required" ∧
    (cmd_agent_task "" 50 "anthropic"
        ⟨true, "", true, fun _ => [], .stillRunning, .stillRunning⟩
        ⟨true, true, 0, some ⟨false, []⟩, none, none, false⟩).1
      ≠ cmd_agent_status ⟨true, true, 0, some ⟨false, []⟩, none, none, false⟩ := by
  refine ⟨rfl, rfl, ?_⟩
  decide

/-- C2, amended.  If an agent task is in flight, dispatching a second
`agent_task` with a non-empty task description — provided the session is
started or can be started, both of which the handler checks before the
in-flight check — returns exactly `cmd_agent_status()` and leaves the
task handle, the pending question and the user-response state
untouched. -/
theorem second_agent_task_returns_status
    (task : String) (ms : Nat) (model : String) (w : World) (s : ServerState)
    (hflight : agentInFlight s = true) (htask : task ≠ "")
    (hstart : s.session = true ∨ w.startBrowserOk = true) :
    (cmd_agent_task task ms model w s).1 = cmd_agent_status s ∧
    (cmd_agent_task task ms model w s).2.agentTask = s.agentTask ∧
    (cmd_agent_task task ms model w s).2.pendingQuestion = s.pendingQuestion ∧
    (cmd_agent_task task ms model w s).2.userResponseValue = s.userResponseValue ∧
    (cmd_agent_task task ms model w s).2.userResponseEventSet
      = s.userResponseEventSet := by
  have hs : ¬(s.session = false ∧ w.startBrowserOk = false) := by
    rcases hstart with h | h <;> simp [h]
  unfold cmd_agent_task
  rw [if_neg htask, if_neg hs, if_pos hflight]
  exact ⟨rfl, rfl, rfl, rfl, rfl⟩

/-- Witness for the amended C2 at a concrete in-flight state. -/
theorem second_agent_task_returns_status_witness :
    (cmd_agent_task "book a flight" 50 "anthropic"
        ⟨true, "", true, fun _ => [], .stillRunning, .stillRunning⟩
        ⟨true, true, 0, some ⟨false, []⟩, none, none, false⟩).1
      = cmd_agent_status ⟨true, true, 0, some ⟨false, []⟩, none, none, false⟩ :=
  (second_agent_task_returns_status "book a flight" 50 "anthropic"
    ⟨true, "", true, fun _ => [], .stillRunning, .stillRunning⟩
    ⟨true, true, 0, some ⟨false, []⟩, none, none, false⟩
    rfl (by decide) (.inl rfl)).1

/-! ## C6: `ask_human` option validation -/

/-- C6, counterexample to the claim's distinctness requirement.  The
options `["a", "a"]` contain fewer than 2 distinct values, yet
`ask_human` does *not* fail validation: it only counts entries
(`len(options) < 2`), so it records the pending question and suspends. -/
theorem ask_human_duplicate_options_cex :
    (["a", "a"] : List String).dedup = ["a"] ∧
    (ask_human "q" ["a", "a"] ""
        ⟨true, true, 0, some ⟨false, []⟩, none, none, false⟩).1 = .suspended ∧
    (ask_human "q" ["a", "a"] ""
        ⟨true, true, 0, some ⟨false, []⟩, none, none, false⟩).2.pendingQuestion
      = some ⟨"q", ["a", "a"], ""⟩ := by
  refine ⟨by decide, rfl, rfl⟩

/-- C6, amended.  `ask_human` fails validation exactly when it receives
fewer than 2 options (entries, not distinct values): it returns the
error `ActionResult` and leaves the state — in particular the pending
question — untouched, so the task does not suspend. -/
theorem ask_human_validation
    (q : String) (opts : List String) (ctx : String) (s : ServerState)
    (h : opts.length < 2) :
    ask_human q opts ctx s
      = (.validationError "ask_human requires at least 2 options", s) := by
  unfold ask_human
  split_ifs with hc
  · rfl
  · exfalso
    apply hc
    simp [h]

/-- Witness for the amended C6 at an empty option list. -/
theorem ask_human_validation_witness :
    ask_human "q" [] "ctx" ⟨true, true, 0, some ⟨false, []⟩, none, none, false⟩
      = (.validationError "ask_human requires at least 2 options",
         ⟨true, true, 0, some ⟨false, []⟩, none, none, false⟩) :=
  ask_human_validation "q" [] "ctx"
    ⟨true, true, 0, some ⟨false, []⟩, none, none, false⟩ (by decide)

/-! ## C7: `agent_continue` -/

/-- C7, counterexample to "for every supplied choice string".  With a
task in flight and a question pending, `agent_continue` with the empty
choice string is rejected (`Choice is required`): nothing is recorded and
the task is not signalled. -/
theorem agent_continue_empty_choice_cex :
    agentInFlight
      ⟨true, true, 0, some ⟨false, []⟩, some ⟨"q", ["a", "b"], ""⟩, none, false⟩
      = true ∧
    cmd_agent_continue ""
        ⟨true, "", true, fun _ => [], .stillRunning, .stillRunning⟩
        ⟨true, true, 0, some ⟨false, []⟩, some ⟨"q", ["a", "b"], ""⟩, none, false⟩
      = (errorResp "Choice is required",
         ⟨true, true, 0, some ⟨false, []⟩, some ⟨"q", ["a", "b"], ""⟩, none, false⟩) ∧
    (cmd_agent_continue ""
        ⟨true, "", true, fun _ => [], .stillRunning, .stillRunning⟩
        ⟨true, true, 0, some ⟨false, []⟩, some ⟨"q", ["a", "b"], ""⟩, none,
          false⟩).2.userResponseValue = none :=
  ⟨rfl, rfl, rfl⟩

/-- C7, amended.  `agent_continue` errors whenever no task is in flight
or no question is pending; otherwise, for every *non-empty* choice string
— with no requirement that the choice be among the offered options — it
records the choice and signals the suspended task (the handler is the
wait phase run on the state with the response value recorded and the
response event set), and the `status` field it reports for each wait
outcome is exactly the one `cmd_agent_task`'s wait phase reports. -/
theorem agent_continue_spec (choice : String) (w : World) (s : ServerState) :
    (agentInFlight s = false →
      cmd_agent_continue choice w s
        = (errorResp "No agent task is waiting for input", s)) ∧
    (agentInFlight s = true → s.pendingQuestion = none →
      cmd_agent_continue choice w s
        = (errorResp "Agent is not waiting for user input", s)) ∧
    (∀ q, agentInFlight s = true → s.pendingQuestion = some q → choice ≠ "" →
      cmd_agent_continue choice w s
        = continueWaitPhase w.continueWait
            { s with userResponseValue := some choice,
                     userResponseEventSet := true }) ∧
    (∀ (o : WaitOutcome) (s1 s2 : ServerState),
      ((continueWaitPhase o s1).1).lookup "status"
        = ((agentTaskWaitPhase o s2).1).lookup "status") := by
  refine ⟨?_, ?_, ?_, ?_⟩
  · intro h
    unfold cmd_agent_continue
    rw [if_pos h]
  · intro h hq
    unfold cmd_agent_continue
    rw [if_neg (by simp [h]), hq]
  · intro q h hq hch
    unfold cmd_agent_continue
    rw [if_neg (by simp [h]), hq]
    simp only
    rw [if_neg hch]
  · intro o s1 s2
    cases o <;> rfl

/-- Witness for the amended C7: a choice outside the offered options is
accepted and recorded. -/
theorem agent_continue_spec_witness :
    cmd_agent_continue "custom"
        ⟨true, "", true, fun _ => [], .stillRunning, .stillRunning⟩
        ⟨true, true, 0, some ⟨false, []⟩, some ⟨"q", ["a", "b"], ""⟩, none, false⟩
      = continueWaitPhase .stillRunning
          ⟨true, true, 0, some ⟨false, []⟩, some ⟨"q", ["a", "b"], ""⟩,
            some "custom", true⟩ :=
  (agent_continue_spec "custom"
    ⟨true, "", true, fun _ => [], .stillRunning, .stillRunning⟩
    ⟨true, true, 0, some ⟨false, []⟩, some ⟨"q", ["a", "b"], ""⟩, none,
      false⟩).2.2.1
    ⟨"q", ["a", "b"], ""⟩ rfl rfl (by decide)

/-! ## C5: the pending-question invariant -/

lemma pendingInv_of (s : ServerState)
    (h : s.pendingQuestion = none ∨ agentInFlight s = true) : PendingInv s := by
  unfold PendingInv
  rcases h with h | h
  · simp [h]
  · simp [h]

lemma cmd_agent_task_inv (t : String) (ms : Nat) (m : String) (w : World)
    (s : ServerState) (h : PendingInv s) :
    PendingInv (cmd_agent_task t ms m w s).2 := by
  unfold cmd_agent_task agentTaskWaitPhase
  split_ifs with h1 h2 h3
  · exact h
  · exact h
  · exact h
  · cases w.agentWait with
    | completed r => exact pendingInv_of _ (.inl rfl)
    | needsInput q => exact pendingInv_of _ (.inr rfl)
    | stillRunning => exact pendingInv_of _ (.inl rfl)

lemma cmd_agent_continue_inv (c : String) (w : World) (s : ServerState)
    (h : PendingInv s) :
    PendingInv (cmd_agent_continue c w s).2 := by
  unfold cmd_agent_continue continueWaitPhase
  split
  next => exact h
  next h1 =>
    split
    next => exact h
    next q =>
      split
      next => exact h
      next h2 =>
        have h1' : agentInFlight s = true := by
          simpa using h1
        split
        next r => exact pendingInv_of _ (.inl rfl)
        next q' => exact pendingInv_of _ (.inr h1')
        next => exact pendingInv_of _ (.inl rfl)

lemma cmd_agent_cancel_inv (s : ServerState) (h : PendingInv s) :
    PendingInv (cmd_agent_cancel s).2 := by
  unfold cmd_agent_cancel
  split
  next => exact h
  next t =>
    split
    next => exact h
    next => exact pendingInv_of _ (.inl rfl)

/-- C5, counterexample.  In a state satisfying the invariant — a task in
flight suspended on a pending question — dispatching `close` cancels the
task (awaiting its teardown) but leaves `self._pending_question` set, so
the quiescent state after the `close` handler has a PendingQuestion with
no in-flight `need_input` task: the claimed iff is violated, and `close`
leaves a PendingQuestion behind. -/
theorem close_leaves_pending_question_cex :
    PendingInv ⟨true, true, 0, some ⟨false, []⟩, some ⟨"q", ["a", "b"], ""⟩,
      none, false⟩ ∧
    ¬ PendingInv (step
        (.dispatch 0 "close" Params.empty
          ⟨true, "", true, fun _ => [], .stillRunning, .stillRunning⟩)
        ⟨true, true, 0, some ⟨false, []⟩, some ⟨"q", ["a", "b"], ""⟩, none,
          false⟩) ∧
    (step (.dispatch 0 "close" Params.empty
          ⟨true, "", true, fun _ => [], .stillRunning, .stillRunning⟩)
        ⟨true, true, 0, some ⟨false, []⟩, some ⟨"q", ["a", "b"], ""⟩, none,
          false⟩).pendingQuestion = some ⟨"q", ["a", "b"], ""⟩ ∧
    agentInFlight (step (.dispatch 0 "close" Params.empty
          ⟨true, "", true, fun _ => [], .stillRunning, .stillRunning⟩)
        ⟨true, true, 0, some ⟨false, []⟩, some ⟨"q", ["a", "b"], ""⟩, none,
          false⟩) = false := by
  refine ⟨rfl, ?_, rfl, rfl⟩
  decide

/-- C5, amended.  The invariant "a PendingQuestion exists iff the task
state is `need_input`" (equivalently: a pending question implies an
in-flight task, the `need_input` branch of `cmd_agent_status` firing
exactly then) is preserved by every quiescent-point operation — command
dispatches, `ask_human`, resumption, task completion, `agent_cancel` —
*except* a `close` dispatched while a question is pending, which
terminates the task but leaves the question in place. -/
theorem pending_question_invariant
    (op : Op) (s : ServerState) (hInv : PendingInv s)
    (hok : op.isCloseDispatch = false ∨ s.pendingQuestion = none) :
    PendingInv (step op s) ∧
    (∀ q t, s.agentTask = some t → t.done = false → s.pendingQuestion = some q →
      cmd_agent_status s = needInputResp q) := by
  constructor
  · cases op with
    | dispatch now cmd p w =>
      simp only [step]
      unfold handle_command
      rcases Classical.em (cmd ∈ knownCommands) with hin | hout
      · simp only [knownCommands, List.mem_cons, List.not_mem_nil, or_false]
          at hin
        rcases hin with rfl | rfl | rfl | rfl | rfl | rfl | rfl | rfl | rfl |
          rfl | rfl | rfl | rfl | rfl | rfl | rfl | rfl | rfl | rfl
        · show PendingInv (cmd_open (p.url.getD "") w (update_activity now s)).2
          rw [cmd_open_snd]; exact hInv
        · show PendingInv (cmd_state w (update_activity now s)).2
          rw [cmd_state_snd]; exact hInv
        · show PendingInv (cmd_click (p.index.getD 0) w (update_activity now s)).2
          rw [cmd_click_snd]; exact hInv
        · show PendingInv (cmd_input (p.index.getD 0) (p.text.getD "") w
            (update_activity now s)).2
          rw [cmd_input_snd]; exact hInv
        · show PendingInv (cmd_type (p.text.getD "") w (update_activity now s)).2
          rw [cmd_type_snd]; exact hInv
        · show PendingInv (cmd_keys (p.key.getD "") w (update_activity now s)).2
          rw [cmd_keys_snd]; exact hInv
        · show PendingInv (cmd_scroll (p.direction.getD "down") w
            (update_activity now s)).2
          rw [cmd_scroll_snd]; exact hInv
        · show PendingInv (cmd_back w (update_activity now s)).2
          rw [cmd_back_snd]; exact hInv
        · show PendingInv (cmd_screenshot p.filename w (update_activity now s)).2
          rw [cmd_screenshot_snd]; exact hInv
        · -- close: by `hok`, no question is pending
          have hq : s.pendingQuestion = none := by
            rcases hok with hok | hok
            · simp [Op.isCloseDispatch] at hok
            · exact hok
          show PendingInv (cmd_close (update_activity now s)).2
          refine pendingInv_of _ (.inl ?_)
          rw [cmd_close_pending]
          exact hq
        · exact hInv
        · show PendingInv (cmd_tabs w (update_activity now s)).2
          rw [cmd_tabs_snd]; exact hInv
        · show PendingInv (cmd_switch (p.index.getD 0) w (update_activity now s)).2
          rw [cmd_switch_snd]; exact hInv
        · show PendingInv (cmd_wait now (p.seconds.getD 30) (p.message.getD "")
            (update_activity now s)).2
          rw [cmd_wait_snd]
          split
          · exact hInv
          · exact hInv
        · show PendingInv (cmd_refresh w (update_activity now s)).2
          rw [cmd_refresh_snd]; exact hInv
        · show PendingInv (cmd_agent_task (p.task.getD "") (p.maxSteps.getD 50)
            (p.model.getD "anthropic") w (update_activity now s)).2
          exact cmd_agent_task_inv _ _ _ _ _ hInv
        · show PendingInv (cmd_agent_continue (p.choice.getD "") w
            (update_activity now s)).2
          exact cmd_agent_continue_inv _ _ _ hInv
        · exact hInv
        · show PendingInv (cmd_agent_cancel (update_activity now s)).2
          exact cmd_agent_cancel_inv _ hInv
      · simp only [knownCommands, List.mem_cons, List.not_mem_nil, or_false,
          not_or] at hout
        obtain ⟨h1, h2, h3, h4, h5, h6, h7, h8, h9, h10, h11, h12, h13, h14,
          h15, h16, h17, h18, h19⟩ := hout
        unfold dispatchBody
        rw [if_neg h1, if_neg h2, if_neg h3, if_neg h4, if_neg h5, if_neg h6,
          if_neg h7, if_neg h8, if_neg h9, if_neg h10, if_neg h11, if_neg h12,
          if_neg h13, if_neg h14, if_neg h15, if_neg h16, if_neg h17,
          if_neg h18, if_neg h19]
        exact hInv
    | taskAsks q opts ctx =>
      simp only [step]
      split_ifs with hg
      · unfold ask_human
        split_ifs with hv
        · exact hInv
        · exact pendingInv_of _ (.inr hg.1)
      · exact hInv
    | taskResumes =>
      simp only [step]
      split_ifs with hg
      · exact pendingInv_of _ (.inl rfl)
      · exact hInv
    | taskFinishes r =>
      simp only [step]
      split_ifs with hg
      · exact pendingInv_of _ (.inl hg.2)
      · exact hInv
  · intro q t hat hd hq
    unfold cmd_agent_status
    rw [hat]
    simp [hd, hq]

/-- Witness for the amended C5: `agent_cancel` on a suspended task
preserves the invariant (it clears the question). -/
theorem pending_question_invariant_witness :
    PendingInv (step (.dispatch 0 "agent_cancel" Params.empty
        ⟨true, "", true, fun _ => [], .stillRunning, .stillRunning⟩)
      ⟨true, true, 0, some ⟨false, []⟩, some ⟨"q", ["a", "b"], ""⟩, none,
        false⟩) :=
  (pending_question_invariant
    (.dispatch 0 "agent_cancel" Params.empty
      ⟨true, "", true, fun _ => [], .stillRunning, .stillRunning⟩)
    ⟨true, true, 0, some ⟨false, []⟩, some ⟨"q", ["a", "b"], ""⟩, none, false⟩
    rfl (.inl rfl)).1

end Sidecar
